import Mathlib

/-!
Verification of the session-lifecycle and message-relay logic of the
WhatsApp render bridge.  The definitions below are shallow embeddings of
the Go source: the shared status store mutated by the event handlers and
the QR drain goroutine, the logged-out handlers, the message relay
(`HandleIncomingMessage`, `extractTextContent`, `extractPhoneFromJID`,
`processMessageWithExternalServer`, `sendToExternalServer`), the
`/api/send` HTTP handler, the startup device-open classification, and a
small interleaving model of the logout-triggered recreation goroutines.
-/

namespace Bridge

/-! ### Go string primitives used by the source -/

/-- Boolean prefix test on character lists (`strings.HasPrefix` at the
character level, used to build substring containment). -/
def prefixOfB : List Char → List Char → Bool
  | [], _ => true
  | _ :: _, [] => false
  | a :: as, b :: bs => a == b && prefixOfB as bs

/-- `containsSeq needle hay` : does `needle` occur contiguously in `hay`?
Mirrors Go `strings.Contains` (true for an empty needle). -/
def containsSeq (needle : List Char) : List Char → Bool
  | [] => needle.isEmpty
  | c :: rest => prefixOfB needle (c :: rest) || containsSeq needle rest

/-- Go `strings.Contains s pat`. -/
def goContains (s pat : String) : Bool :=
  containsSeq pat.data s.data

/-- Go `strings.ToLower` restricted to its ASCII action (every string the
source compares is matched against an ASCII-lowercase needle, on which Go
and ASCII lowering agree). -/
def goToLower (s : String) : String :=
  String.mk (s.data.map Char.toLower)

/-- ASCII whitespace recognised by Go `unicode.IsSpace`. -/
def isGoSpace (c : Char) : Bool :=
  c = ' ' || c = '\t' || c = '\n' || c = '\r' || c = Char.ofNat 11 || c = Char.ofNat 12

/-- Go `strings.TrimSpace` (ASCII whitespace). -/
def goTrimSpace (s : String) : String :=
  String.mk (((s.data.dropWhile isGoSpace).reverse.dropWhile isGoSpace).reverse)

/-- Go `strings.Split s "@"` on the character list, for a one-character
separator: splits at every occurrence of `sep`. -/
def splitOnChar (sep : Char) : List Char → List (List Char)
  | [] => [[]]
  | c :: cs =>
    if c = sep then [] :: splitOnChar sep cs
    else
      match splitOnChar sep cs with
      | [] => [[c]]
      | h :: t => (c :: h) :: t

/-! ### Status store (globals `needsAuth`, `currentQR` guarded by `mu`) -/

/-- Snapshot of the shared status store: the globals `needsAuth` and
`currentQR` of the bridge, each read and written only under the `mu`
read/write lock. -/
structure SessionState where
  needsAuth : Bool
  currentQR : String
deriving Repr, DecidableEq

/-- Go zero values of the globals at process start. -/
def initialSessionState : SessionState :=
  { needsAuth := false, currentQR := "" }

/-- The atomic transitions performed on the status store, each one a
single critical section in the source: the QR drain goroutine's "code"
and "success" events, the `events.Connected` and `events.LoggedOut`
branches of the registered handler, the write at the top of
`recreateClient`, and the bare `needsAuth = true` writes in `main`. -/
inductive StoreEvent where
  | qrCode (code : String)
  | qrSuccess
  | connectedEvt
  | loggedOutEvt
  | recreateStart
  | markAuthNeeded
deriving Repr, DecidableEq

/-- One locked transition of the status store. -/
def storeStep (s : SessionState) : StoreEvent → SessionState
  | .qrCode code => { needsAuth := true, currentQR := code }
  | .qrSuccess => { needsAuth := false, currentQR := "" }
  | .connectedEvt => { needsAuth := false, currentQR := "" }
  | .loggedOutEvt => { needsAuth := true, currentQR := "" }
  | .recreateStart => { needsAuth := true, currentQR := "" }
  | .markAuthNeeded => { s with needsAuth := true }

/-- The store state after a sequence of transitions from process start. -/
def runStore (evts : List StoreEvent) : SessionState :=
  evts.foldl storeStep initialSessionState

/-- The snapshot invariant: `currentQR` non-empty forces `needsAuth`. -/
def qrAuthInvB (s : SessionState) : Bool :=
  (s.currentQR == "") || s.needsAuth

/-! ### Logged-out handlers -/

/-- What one delivery of `events.LoggedOut` to a registered handler does:
the store state it leaves, whether it schedules a client recreation, and
the delay (in seconds) before that recreation starts. -/
structure LoggedOutEffect where
  state : SessionState
  schedulesRecreation : Bool
  delaySeconds : Nat
deriving Repr, DecidableEq

/-- LoggedOut branch of the handler registered in the current `main`
(part_000 lines 790-803): sets `needsAuth`, clears `currentQR`, and after
`time.Sleep(2 * time.Second)` calls `recreateClient`. -/
def loggedOutHandlerMain (_ : SessionState) : LoggedOutEffect :=
  { state := { needsAuth := true, currentQR := "" }
    schedulesRecreation := true
    delaySeconds := 2 }

/-- LoggedOut branch of the handler registered by `recreateClient`
(part_000 lines 276-288), textually identical to the one in `main`. -/
def loggedOutHandlerRecreate (_ : SessionState) : LoggedOutEffect :=
  { state := { needsAuth := true, currentQR := "" }
    schedulesRecreation := true
    delaySeconds := 2 }

/-- LoggedOut branch of the handler registered in the legacy
`src/main.go` (lines 566-571): sets `needsAuth` only — `currentQR` is
left unchanged and no recreation is scheduled. -/
def loggedOutHandlerLegacy (s : SessionState) : LoggedOutEffect :=
  { state := { s with needsAuth := true }
    schedulesRecreation := false
    delaySeconds := 0 }

/-- Every LoggedOut handler registered somewhere in the repository. -/
def registeredLoggedOutHandlers : List (SessionState → LoggedOutEffect) :=
  [loggedOutHandlerMain, loggedOutHandlerRecreate, loggedOutHandlerLegacy]

/-! ### Message relay (`message_handler.go`) -/

/-- The `ExtendedTextMessage` part of a protocol message: its `Text`
field is an optional string. -/
structure ExtendedText where
  text : Option String
deriving Repr, DecidableEq

/-- The parts of `waProto.Message` that `extractTextContent` inspects;
each field is a nil-able pointer in Go, hence an `Option`. -/
structure WAMessage where
  conversation : Option String
  extendedTextMessage : Option ExtendedText
deriving Repr, DecidableEq

/-- An inbound `events.Message`: the `Info.IsFromMe`, `Info.Chat`,
`Info.Sender` metadata plus the (nil-able) message body. -/
structure IncomingMessage where
  isFromMe : Bool
  chatJID : String
  senderJID : String
  message : Option WAMessage
deriving Repr, DecidableEq

/-- `extractTextContent` (message_handler.go lines 165-180): plain
conversation text first, then extended text, otherwise empty. -/
def extractTextContent (message : Option WAMessage) : String :=
  match message with
  | none => ""
  | some m =>
    match m.conversation with
    | some t => t
    | none =>
      match m.extendedTextMessage with
      | some e =>
        match e.text with
        | some t => t
        | none => ""
      | none => ""

/-- `extractPhoneFromJID` (message_handler.go lines 183-190):
`strings.Split(jid, "@")` and return the first part (the split list is
never empty, so the `len(parts) > 0` guard always takes the first part). -/
def extractPhoneFromJID (jid : String) : String :=
  match splitOnChar '@' jid.data with
  | [] => ""
  | p :: _ => String.mk p

/-- The spec's wording of sender identification, for comparison with the
source's `extractPhoneFromJID`: "the substring before its first `@`
separator". -/
def specPhoneBeforeAt (jid : String) : String :=
  String.mk (jid.data.takeWhile (fun c => c != '@'))

/-- The lowercase needle `HandleIncomingMessage` matches to drop its own
canned responses (message_handler.go line 50). -/
def botEchoNeedle : String := "lo siento, no pude procesar"

/-- The fixed apology sent by `sendErrorResponse`
(message_handler.go line 160). -/
def errorResponseText : String :=
  "Lo siento, no pude procesar tu mensaje en este momento. Inténtalo más tarde."

/-- Outcome of `HandleIncomingMessage` on one inbound event: which early
return fired, or the dispatched query/phone/chat triple handed to the
`processMessageWithExternalServer` goroutine. -/
inductive HandleOutcome where
  | ignoredFromMe
  | ignoredNoText
  | ignoredBotEcho
  | droppedNoPhone
  | dispatched (query phone chat : String)
deriving Repr, DecidableEq

/-- `HandleIncomingMessage` (message_handler.go lines 32-67). -/
def handleIncomingMessage (msg : IncomingMessage) : HandleOutcome :=
  if msg.isFromMe then .ignoredFromMe
  else
    let content := extractTextContent msg.message
    if goTrimSpace content = "" then .ignoredNoText
    else if goContains (goToLower content) botEchoNeedle then .ignoredBotEcho
    else
      let phone := extractPhoneFromJID msg.senderJID
      if phone = "" then .droppedNoPhone
      else .dispatched content phone msg.chatJID

/-- Whether an outcome forwards the message to the external server. -/
def isDispatched : HandleOutcome → Bool
  | .dispatched _ _ _ => true
  | _ => false

/-! ### External-server call (`sendToExternalServer`,
`processMessageWithExternalServer`) -/

/-- Request body sent to the external server. -/
structure ExternalServerRequest where
  query : String
  phoneNumber : String
deriving Repr, DecidableEq

/-- Decoded response body of the external server. -/
structure ExternalServerResponse where
  result : String
  phoneNumber : String
  err : String
deriving Repr, DecidableEq

/-- Environment for one external call: whether `EXTERNAL_SERVER_URL` is
configured, and the outcome of `client.Post` — `none` is a network
error, `some (status, none)` a body that fails to decode, and
`some (status, some resp)` a decoded body with its HTTP status. -/
structure ExternalEnv where
  urlConfigured : Bool
  postResult : ExternalServerRequest → Option (Nat × Option ExternalServerResponse)

/-- `sendToExternalServer` (message_handler.go lines 96-143): error when
the URL is missing, the POST fails, the body does not decode, or the
status is not 200; otherwise the decoded response. -/
def sendToExternalServer (env : ExternalEnv) (req : ExternalServerRequest) :
    Option ExternalServerResponse :=
  if env.urlConfigured = false then none
  else
    match env.postResult req with
    | none => none
    | some (_, none) => none
    | some (status, some resp) => if status = 200 then some resp else none

/-- `processMessageWithExternalServer` (message_handler.go lines 70-93),
returned as the list of `(chatJID, text)` outbound replies it issues
through `sendWhatsAppResponse` / `sendErrorResponse`. -/
def processMessageWithExternalServer (env : ExternalEnv)
    (query phoneNumber chatJID : String) : List (String × String) :=
  match sendToExternalServer env { query := query, phoneNumber := phoneNumber } with
  | none => [(chatJID, errorResponseText)]
  | some resp =>
    if resp.result = "" then [(chatJID, errorResponseText)]
    else [(chatJID, resp.result)]

/-! ### Outbound send and the `/api/send` handler -/

/-- Request body of `POST /api/send`. -/
structure SendMessageRequest where
  recipient : String
  message : String
  mediaPath : String
deriving Repr, DecidableEq

/-- Environment for `sendWhatsAppMessage`: the client's connection
state and the outcomes of its effectful collaborators
(`types.ParseJID`, `os.ReadFile`, `client.Upload`, `client.SendMessage`). -/
structure SendEnv where
  isConnected : Bool
  parseJIDFails : String → Bool
  readFileFails : String → Bool
  uploadFails : String → Bool
  sendMessageFails : Bool

/-- Result of `sendWhatsAppMessage`: the `(bool, string)` pair it
returns, plus how many times it called `client.SendMessage`. -/
structure SendOutcome where
  success : Bool
  message : String
  sendAttempts : Nat
deriving Repr, DecidableEq

/-- `sendWhatsAppMessage` (part_000 lines 53-215).  Error strings keep
the fixed prefix of the corresponding `fmt.Sprintf`. -/
def sendWhatsAppMessage (env : SendEnv) (recipient message mediaPath : String) :
    SendOutcome :=
  if env.isConnected = false then
    { success := false, message := "Not connected to WhatsApp", sendAttempts := 0 }
  else if goContains recipient "@" && env.parseJIDFails recipient then
    { success := false, message := "Error parsing JID", sendAttempts := 0 }
  else if mediaPath ≠ "" then
    if env.readFileFails mediaPath then
      { success := false, message := "Error reading media file", sendAttempts := 0 }
    else if env.uploadFails mediaPath then
      { success := false, message := "Error uploading media", sendAttempts := 0 }
    else if env.sendMessageFails then
      { success := false, message := "Error sending message", sendAttempts := 1 }
    else
      { success := true, message := "Message sent to " ++ recipient, sendAttempts := 1 }
  else
    if env.sendMessageFails then
      { success := false, message := "Error sending message", sendAttempts := 1 }
    else
      { success := true, message := "Message sent to " ++ recipient, sendAttempts := 1 }

/-- Response of the `/api/send` handler: a `http.Error` with status 405
or 400, or the JSON `SendMessageResponse` (status 200 when `success`,
500 otherwise). -/
inductive ApiSendResult where
  | methodNotAllowed
  | badRequest (msg : String)
  | sendResult (success : Bool) (message : String)
deriving Repr, DecidableEq

/-- HTTP status code written for each `/api/send` response. -/
def statusOf : ApiSendResult → Nat
  | .methodNotAllowed => 405
  | .badRequest _ => 400
  | .sendResult true _ => 200
  | .sendResult false _ => 500

/-- The `/api/send` handler (part_000 lines 604-648; the handler in
src/main.go lines 427-471 is textually identical).  `body = none` models
a request body that fails to decode.  The second component counts the
`client.SendMessage` calls performed. -/
def apiSend (env : SendEnv) (method : String) (body : Option SendMessageRequest) :
    ApiSendResult × Nat :=
  if method ≠ "POST" then (.methodNotAllowed, 0)
  else
    match body with
    | none => (.badRequest "Invalid request format", 0)
    | some req =>
      if req.recipient = "" then (.badRequest "Recipient is required", 0)
      else if req.message = "" ∧ req.mediaPath = "" then
        (.badRequest "Message or media path is required", 0)
      else
        let o := sendWhatsAppMessage env req.recipient req.message req.mediaPath
        (.sendResult o.success o.message, o.sendAttempts)

/-! ### Startup device-open classification (part_000 lines 744-772) -/

/-- Error returned by `container.GetFirstDevice`: the `sql.ErrNoRows`
sentinel or any other error carrying its message text. -/
inductive DeviceOpenError where
  | errNoRows
  | other (msg : String)
deriving Repr, DecidableEq

/-- What `main` does with the device-open result. -/
inductive StartupAction where
  | useExisting
  | createFresh
  | wipeThenCreate
  | fatal
deriving Repr, DecidableEq

/-- The corruption signature matched by substring
(part_000 line 750). -/
def foreignKeySignature : String := "FOREIGN KEY constraint failed"

/-- The three-way branch of `main` on the `GetFirstDevice` error:
no error → use the device; `sql.ErrNoRows` → create a fresh device;
an error containing the foreign-key signature → wipe the store and
create a fresh device; anything else → log and return (fatal). -/
def classifyDeviceOpen : Option DeviceOpenError → StartupAction
  | none => .useExisting
  | some .errNoRows => .createFresh
  | some (.other msg) =>
    if goContains msg foreignKeySignature then .wipeThenCreate else .fatal

/-! ### Logout-triggered recreation goroutines (part_000 lines 790-803)

Each `events.LoggedOut` delivery spawns one goroutine that sleeps for
the fixed delay and then calls `recreateClient`; nothing in the source
serialises those goroutines, so an interleaving model has three kinds of
atomic steps: an event delivery (spawning a sleeping timer), a timer
firing (entering `recreateClient`), and a recreation finishing
(returning from `recreateClient`). -/

/-- `time.Sleep(2 * time.Second)` before `recreateClient`. -/
def logoutRecreateDelaySeconds : Nat := 2

/-- Scheduler state: sleeping timer goroutines, recreations currently
executing, and the cumulative count of recreations started. -/
structure RecState where
  pendingTimers : Nat
  running : Nat
  started : Nat
deriving Repr, DecidableEq

/-- Atomic steps of the interleaving model. -/
inductive RecEvent where
  | loggedOut
  | timerFires
  | recreationEnds
deriving Repr, DecidableEq

/-- One scheduler step.  A timer can only fire if one is pending and a
recreation can only end if one is running; nothing guards `timerFires`
against `running > 0`, because `recreateClient` takes no lock. -/
def recStep (s : RecState) : RecEvent → RecState
  | .loggedOut => { s with pendingTimers := s.pendingTimers + 1 }
  | .timerFires =>
    if s.pendingTimers = 0 then s
    else
      { pendingTimers := s.pendingTimers - 1
        running := s.running + 1
        started := s.started + 1 }
  | .recreationEnds =>
    if s.running = 0 then s else { s with running := s.running - 1 }

/-- Scheduler state after a sequence of steps from the quiescent state. -/
def recRun (tr : List RecEvent) : RecState :=
  tr.foldl recStep { pendingTimers := 0, running := 0, started := 0 }

/-- Whether a scheduler step is a logged-out delivery. -/
def isLoggedOutEv : RecEvent → Bool
  | .loggedOut => true
  | _ => false

/-- Number of logged-out deliveries in a schedule. -/
def loggedOutCount (tr : List RecEvent) : Nat :=
  tr.countP isLoggedOutEv

/-! ### Concrete fixtures used to evaluate the definitions -/

/-- An inbound message carrying the relay's own canned apology. -/
def apologyMsg : IncomingMessage :=
  { isFromMe := false
    chatJID := "59812345@s.whatsapp.net"
    senderJID := "59812345@s.whatsapp.net"
    message := some { conversation := some "Lo siento, no pude procesar tu mensaje..."
                      extendedTextMessage := none } }

/-- An inbound message sent by this account itself. -/
def fromMeMsg : IncomingMessage :=
  { isFromMe := true
    chatJID := "59812345@s.whatsapp.net"
    senderJID := "59899999@s.whatsapp.net"
    message := some { conversation := some "hola", extendedTextMessage := none } }

/-- An inbound message whose text is whitespace only. -/
def noTextMsg : IncomingMessage :=
  { isFromMe := false
    chatJID := "59812345@s.whatsapp.net"
    senderJID := "59812345@s.whatsapp.net"
    message := some { conversation := some "   ", extendedTextMessage := none } }

/-- An inbound text message whose sender address yields no phone
number. -/
def brokenSenderMsg : IncomingMessage :=
  { isFromMe := false
    chatJID := "123@s.whatsapp.net"
    senderJID := "@broken"
    message := some { conversation := some "hola", extendedTextMessage := none } }

/-- An inbound event with a nil message body. -/
def nilBodyMsg : IncomingMessage :=
  { isFromMe := false
    chatJID := "59812345@s.whatsapp.net"
    senderJID := "59812345@s.whatsapp.net"
    message := none }

/-- A send environment whose client reports disconnected and whose
collaborators never fail. -/
def stubSendEnv : SendEnv :=
  { isConnected := false
    parseJIDFails := fun _ => false
    readFileFails := fun _ => false
    uploadFails := fun _ => false
    sendMessageFails := false }

/-- An external server stub answering 200 with result "respuesta". -/
def stubExternalEnvOk : ExternalEnv :=
  { urlConfigured := true
    postResult := fun _ =>
      some (200, some { result := "respuesta", phoneNumber := "59812345", err := "" }) }

/-- An external server stub answering HTTP 500. -/
def stubExternalEnvFail : ExternalEnv :=
  { urlConfigured := true
    postResult := fun _ =>
      some (500, some { result := "", phoneNumber := "59812345", err := "boom" }) }

/-! ### Helper lemmas -/

/-- Every single store transition re-establishes the QR/auth invariant,
whatever the input state. -/
theorem qrAuthInvB_storeStep (s : SessionState) (e : StoreEvent) :
    qrAuthInvB (storeStep s e) = true := by
  cases e <;> simp [storeStep, qrAuthInvB]

/-- The QR/auth invariant is preserved along any fold of transitions. -/
theorem qrAuthInvB_foldl (evts : List StoreEvent) :
    ∀ s : SessionState, qrAuthInvB s = true →
      qrAuthInvB (evts.foldl storeStep s) = true := by
  induction evts with
  | nil => intro s h; simpa using h
  | cons e rest ih => intro s _; exact ih (storeStep s e) (qrAuthInvB_storeStep s e)

/-- The head of `splitOnChar` is the longest separator-free prefix. -/
theorem splitOnChar_head (sep : Char) (l : List Char) :
    ∃ t, splitOnChar sep l = (l.takeWhile (fun c => c != sep)) :: t := by
  induction l with
  | nil => exact ⟨[], rfl⟩
  | cons c cs ih =>
    obtain ⟨t, ht⟩ := ih
    by_cases h : c = sep
    · subst h
      exact ⟨splitOnChar c cs, by simp [splitOnChar, List.takeWhile_cons]⟩
    · exact ⟨t, by simp [splitOnChar, h, ht, List.takeWhile_cons, bne_iff_ne]⟩

/-- One scheduler step: the pending-plus-started total grows exactly on
logged-out deliveries, and executions never outrun starts. -/
theorem recStep_counts (s : RecState) (e : RecEvent) :
    (recStep s e).pendingTimers + (recStep s e).started =
      s.pendingTimers + s.started + (if isLoggedOutEv e then 1 else 0) ∧
    (s.running ≤ s.started → (recStep s e).running ≤ (recStep s e).started) := by
  cases e <;> simp only [recStep, isLoggedOutEv] <;>
    first
      | (constructor <;> omega)
      | (split_ifs <;> constructor <;> simp_all <;> omega)

/-- Fold form of the recreation-scheduler counting invariant. -/
theorem recRun_foldl (tr : List RecEvent) :
    ∀ s : RecState, s.running ≤ s.started →
      (tr.foldl recStep s).pendingTimers + (tr.foldl recStep s).started =
        s.pendingTimers + s.started + loggedOutCount tr ∧
      (tr.foldl recStep s).running ≤ (tr.foldl recStep s).started := by
  induction tr with
  | nil => intro s h; simp [loggedOutCount, h]
  | cons e rest ih =>
    intro s h
    have hc := recStep_counts s e
    have hrest := ih (recStep s e) (hc.2 h)
    refine ⟨?_, hrest.2⟩
    rw [List.foldl_cons, hrest.1, hc.1]
    simp [loggedOutCount, List.countP_cons]
    omega

/-! ### Claim theorems -/

/-- Claim C1: for every sequence of status-store transitions (QR "code",
QR "success", connected, logged-out, recreation start, plus the bare
`needsAuth = true` writes of `main`), a snapshot of the shared state
never shows `currentQR` non-empty with `needsAuth` false; moreover every
single transition leaves a state satisfying that invariant. -/
theorem qr_implies_needsAuth_invariant :
    (∀ evts : List StoreEvent, qrAuthInvB (runStore evts) = true) ∧
    (∀ (s : SessionState) (e : StoreEvent), qrAuthInvB (storeStep s e) = true) :=
  ⟨fun evts => qrAuthInvB_foldl evts initialSessionState rfl, qrAuthInvB_storeStep⟩

/-- Claim C2 counterexample: not every registered logged-out handler
clears `currentQR` and schedules a recreation — the handler in
`src/main.go`, applied to a state holding a QR payload, leaves the
payload in place and schedules nothing. -/
theorem loggedOut_handler_claim_cex :
    ¬ (∀ h ∈ registeredLoggedOutHandlers, ∀ s : SessionState,
        (h s).state.needsAuth = true ∧ (h s).state.currentQR = "" ∧
        (h s).schedulesRecreation = true) := by
  intro hall
  have hmem : loggedOutHandlerLegacy ∈ registeredLoggedOutHandlers := by
    simp [registeredLoggedOutHandlers]
  have h2 := (hall loggedOutHandlerLegacy hmem
    { needsAuth := false, currentQR := "QR-PAYLOAD" }).2.2
  simp [loggedOutHandlerLegacy] at h2

/-- Claim C2 (amended): the logged-out handlers registered by the
current `main` and by `recreateClient` set `needsAuth`, clear
`currentQR`, and schedule a full client recreation after the fixed
2-second delay; the legacy handler in `src/main.go` only sets
`needsAuth`, leaving `currentQR` unchanged and scheduling no
recreation. -/
theorem loggedOut_handlers_behavior :
    (∀ s : SessionState, loggedOutHandlerMain s =
      { state := { needsAuth := true, currentQR := "" }
        schedulesRecreation := true
        delaySeconds := logoutRecreateDelaySeconds }) ∧
    (∀ s : SessionState, loggedOutHandlerRecreate s =
      { state := { needsAuth := true, currentQR := "" }
        schedulesRecreation := true
        delaySeconds := logoutRecreateDelaySeconds }) ∧
    (∀ s : SessionState, loggedOutHandlerLegacy s =
      { state := { needsAuth := true, currentQR := s.currentQR }
        schedulesRecreation := false
        delaySeconds := 0 }) := by
  refine ⟨fun s => rfl, fun s => rfl, fun s => ?_⟩
  cases s
  rfl

/-- Claim C3: phone-number extraction returns the substring before the
first `@` separator; on `"59812345@s.whatsapp.net"` it yields
`"59812345"`, on `"@broken"` it yields `""`, and an inbound message
whose extracted identifier is empty is never dispatched. -/
theorem extractPhone_before_at :
    (∀ jid : String, extractPhoneFromJID jid = specPhoneBeforeAt jid) ∧
    extractPhoneFromJID "59812345@s.whatsapp.net" = "59812345" ∧
    extractPhoneFromJID "@broken" = "" ∧
    (∀ msg : IncomingMessage, extractPhoneFromJID msg.senderJID = "" →
      isDispatched (handleIncomingMessage msg) = false) := by
  refine ⟨?_, by decide, by decide, ?_⟩
  · intro jid
    obtain ⟨t, ht⟩ := splitOnChar_head '@' jid.data
    simp [extractPhoneFromJID, specPhoneBeforeAt, ht]
  · intro msg h
    simp only [handleIncomingMessage]
    split_ifs with h1 h2 h3 <;> simp [isDispatched]

/-- Claim C3 witness: a concrete text message from sender `"@broken"`
is not dispatched. -/
theorem extractPhone_before_at_witness :
    isDispatched (handleIncomingMessage brokenSenderMsg) = false :=
  extractPhone_before_at.2.2.2 brokenSenderMsg (by decide)

/-- Claim C4: the relay's filters apply in order with short-circuit —
self-originated messages are ignored first, then messages with no text
after trimming, then messages matching the canned apology needle — a
dispatched message passed all three, and the concrete apology text
`"Lo siento, no pude procesar tu mensaje..."` is ignored. -/
theorem relay_filter_order :
    (∀ msg : IncomingMessage, msg.isFromMe = true →
      handleIncomingMessage msg = .ignoredFromMe) ∧
    (∀ msg : IncomingMessage, msg.isFromMe = false →
      goTrimSpace (extractTextContent msg.message) = "" →
      handleIncomingMessage msg = .ignoredNoText) ∧
    (∀ msg : IncomingMessage, msg.isFromMe = false →
      goTrimSpace (extractTextContent msg.message) ≠ "" →
      goContains (goToLower (extractTextContent msg.message)) botEchoNeedle = true →
      handleIncomingMessage msg = .ignoredBotEcho) ∧
    (∀ (msg : IncomingMessage) (q p c : String),
      handleIncomingMessage msg = .dispatched q p c →
      msg.isFromMe = false ∧
      goTrimSpace (extractTextContent msg.message) ≠ "" ∧
      goContains (goToLower (extractTextContent msg.message)) botEchoNeedle = false) ∧
    handleIncomingMessage apologyMsg = .ignoredBotEcho := by
  refine ⟨?_, ?_, ?_, ?_, by decide⟩
  · intro msg h; simp [handleIncomingMessage, h]
  · intro msg h1 h2; simp [handleIncomingMessage, h1, h2]
  · intro msg h1 h2 h3; simp [handleIncomingMessage, h1, h2, h3]
  · intro msg q p c hmsg
    simp only [handleIncomingMessage] at hmsg
    split_ifs at hmsg with h1 h2 h3 h4 <;> simp_all

/-- Claim C4 witness: the three filters fire on concrete messages. -/
theorem relay_filter_order_witness :
    handleIncomingMessage fromMeMsg = .ignoredFromMe ∧
    handleIncomingMessage noTextMsg = .ignoredNoText ∧
    handleIncomingMessage apologyMsg = .ignoredBotEcho :=
  ⟨relay_filter_order.1 fromMeMsg (by decide),
   relay_filter_order.2.1 noTextMsg (by decide) (by decide),
   relay_filter_order.2.2.1 apologyMsg (by decide) (by decide) (by decide)⟩

/-- Claim C5: `/api/send` answers 405 to any non-POST method, and 400 —
with no send attempted — to a POST whose body fails to decode, whose
recipient is empty, or whose message and media path are both empty. -/
theorem apiSend_validation :
    (∀ (env : SendEnv) (method : String) (body : Option SendMessageRequest),
      method ≠ "POST" →
      apiSend env method body = (.methodNotAllowed, 0) ∧
      statusOf (apiSend env method body).1 = 405) ∧
    (∀ env : SendEnv,
      apiSend env "POST" none = (.badRequest "Invalid request format", 0) ∧
      statusOf (apiSend env "POST" none).1 = 400) ∧
    (∀ (env : SendEnv) (req : SendMessageRequest), req.recipient = "" →
      apiSend env "POST" (some req) = (.badRequest "Recipient is required", 0) ∧
      statusOf (apiSend env "POST" (some req)).1 = 400) ∧
    (∀ (env : SendEnv) (req : SendMessageRequest),
      req.recipient ≠ "" → req.message = "" → req.mediaPath = "" →
      apiSend env "POST" (some req) =
        (.badRequest "Message or media path is required", 0) ∧
      statusOf (apiSend env "POST" (some req)).1 = 400) := by
  refine ⟨?_, ?_, ?_, ?_⟩
  · intro env method body h
    simp [apiSend, h, statusOf]
  · intro env
    simp [apiSend, statusOf]
  · intro env req h
    simp [apiSend, h, statusOf]
  · intro env req h1 h2 h3
    simp [apiSend, h1, h2, h3, statusOf]

/-- Claim C5 witness: a GET is answered 405 and a POST with empty
message and media path is answered 400 with no send attempted. -/
theorem apiSend_validation_witness :
    apiSend stubSendEnv "GET" none = (.methodNotAllowed, 0) ∧
    apiSend stubSendEnv "POST"
        (some { recipient := "123", message := "", mediaPath := "" }) =
      (.badRequest "Message or media path is required", 0) :=
  ⟨(apiSend_validation.1 stubSendEnv "GET" none (by decide)).1,
   (apiSend_validation.2.2.2 stubSendEnv
      { recipient := "123", message := "", mediaPath := "" }
      (by decide) rfl rfl).1⟩

/-- Claim C6: a well-formed POST to `/api/send` with non-empty recipient
and message, while the client reports disconnected, is answered with
HTTP 500, body success `false` and message `"Not connected to
WhatsApp"`, and no `SendMessage` call is performed. -/
theorem apiSend_disconnected (env : SendEnv) (req : SendMessageRequest)
    (hconn : env.isConnected = false)
    (hr : req.recipient ≠ "") (hm : req.message ≠ "") :
    apiSend env "POST" (some req) =
      (.sendResult false "Not connected to WhatsApp", 0) ∧
    statusOf (apiSend env "POST" (some req)).1 = 500 := by
  have hms : sendWhatsAppMessage env req.recipient req.message req.mediaPath =
      { success := false, message := "Not connected to WhatsApp", sendAttempts := 0 } := by
    simp [sendWhatsAppMessage, hconn]
  simp [apiSend, hr, hm, hms, statusOf]

/-- Claim C6 witness: the concrete request `{recipient := "123",
message := "hola"}` against a disconnected client. -/
theorem apiSend_disconnected_witness :
    apiSend stubSendEnv "POST"
        (some { recipient := "123", message := "hola", mediaPath := "" }) =
      (.sendResult false "Not connected to WhatsApp", 0) :=
  (apiSend_disconnected stubSendEnv
    { recipient := "123", message := "hola", mediaPath := "" }
    rfl (by decide) (by decide)).1

/-- Claim C7: the startup error from opening the device record is
classified three ways — `sql.ErrNoRows` creates a fresh device, an error
whose text contains the foreign-key corruption signature wipes and
recreates the store before creating a fresh device, and any other error
is fatal. -/
theorem deviceOpen_classification :
    classifyDeviceOpen (some .errNoRows) = .createFresh ∧
    (∀ msg : String, goContains msg foreignKeySignature = true →
      classifyDeviceOpen (some (.other msg)) = .wipeThenCreate) ∧
    (∀ msg : String, goContains msg foreignKeySignature = false →
      classifyDeviceOpen (some (.other msg)) = .fatal) := by
  refine ⟨rfl, ?_, ?_⟩ <;> intro msg h <;> simp [classifyDeviceOpen, h]

/-- Claim C7 witness: the classification evaluated on a foreign-key
error text and on an unrelated error text. -/
theorem deviceOpen_classification_witness :
    classifyDeviceOpen (some (.other "FOREIGN KEY constraint failed")) =
      .wipeThenCreate ∧
    classifyDeviceOpen (some (.other "disk read error")) = .fatal :=
  ⟨deviceOpen_classification.2.1 "FOREIGN KEY constraint failed" (by decide),
   deviceOpen_classification.2.2 "disk read error" (by decide)⟩

/-- Claim C8: for every accepted inbound message the relay issues
exactly one outbound reply to the originating chat — the external
server's result when the call succeeds with a non-empty result, and the
fixed apology when the call fails or the result is empty — with no
retry. -/
theorem relay_single_reply :
    (∀ (env : ExternalEnv) (q p c : String),
      (processMessageWithExternalServer env q p c).length = 1) ∧
    (∀ (env : ExternalEnv) (q p c : String) (resp : ExternalServerResponse),
      sendToExternalServer env { query := q, phoneNumber := p } = some resp →
      resp.result ≠ "" →
      processMessageWithExternalServer env q p c = [(c, resp.result)]) ∧
    (∀ (env : ExternalEnv) (q p c : String),
      sendToExternalServer env { query := q, phoneNumber := p } = none →
      processMessageWithExternalServer env q p c = [(c, errorResponseText)]) ∧
    (∀ (env : ExternalEnv) (q p c : String) (resp : ExternalServerResponse),
      sendToExternalServer env { query := q, phoneNumber := p } = some resp →
      resp.result = "" →
      processMessageWithExternalServer env q p c = [(c, errorResponseText)]) := by
  refine ⟨?_, ?_, ?_, ?_⟩
  · intro env q p c
    unfold processMessageWithExternalServer
    cases sendToExternalServer env { query := q, phoneNumber := p } with
    | none => rfl
    | some resp =>
      by_cases h : resp.result = "" <;> simp [h]
  · intro env q p c resp h hres
    simp [processMessageWithExternalServer, h, hres]
  · intro env q p c h
    simp [processMessageWithExternalServer, h]
  · intro env q p c resp h hres
    simp [processMessageWithExternalServer, h, hres]

/-- Claim C8 witness: against a stub answering 200 with
`"respuesta"` the relay replies `"respuesta"`; against a stub answering
HTTP 500 it replies the fixed apology — one outbound send each. -/
theorem relay_single_reply_witness :
    processMessageWithExternalServer stubExternalEnvOk "hola" "59812345" "chat" =
      [("chat", "respuesta")] ∧
    processMessageWithExternalServer stubExternalEnvFail "hola" "59812345" "chat" =
      [("chat", errorResponseText)] :=
  ⟨relay_single_reply.2.1 stubExternalEnvOk "hola" "59812345" "chat"
      { result := "respuesta", phoneNumber := "59812345", err := "" } rfl (by decide),
   relay_single_reply.2.2.1 stubExternalEnvFail "hola" "59812345" "chat" rfl⟩

/-- Claim C9 counterexample: the schedule that delivers two logged-out
events and then lets both delayed timers fire reaches a state with two
recreations executing at once, so recreations can overlap. -/
theorem recreation_no_overlap_cex :
    ¬ (∀ tr : List RecEvent, (recRun tr).running ≤ 1) := by
  intro h
  have h2 := h [.loggedOut, .loggedOut, .timerFires, .timerFires]
  have hv : (recRun [RecEvent.loggedOut, .loggedOut, .timerFires, .timerFires]).running = 2 := by
    decide
  rw [hv] at h2
  omega

/-- Claim C9 (amended): each logged-out event schedules exactly one
delayed recreation — after any schedule, pending timers plus started
recreations equal the number of logged-out deliveries, and the number of
concurrently executing recreations never exceeds the number started —
but nothing bounds the concurrently executing recreations by one. -/
theorem recreation_per_logout :
    ∀ tr : List RecEvent,
      (recRun tr).pendingTimers + (recRun tr).started = loggedOutCount tr ∧
      (recRun tr).running ≤ (recRun tr).started := by
  intro tr
  have h := recRun_foldl tr { pendingTimers := 0, running := 0, started := 0 }
    (by simp)
  simpa [recRun] using h

/-- Claim C10: text extraction is total — a nil message body, a body
with neither conversation text nor extended text, or an extended text
with a nil text field all yield the empty string, and such messages are
filtered as having no text. -/
theorem extractText_total :
    extractTextContent none = "" ∧
    (∀ m : WAMessage, m.conversation = none → m.extendedTextMessage = none →
      extractTextContent (some m) = "") ∧
    (∀ (m : WAMessage) (e : ExtendedText), m.conversation = none →
      m.extendedTextMessage = some e → e.text = none →
      extractTextContent (some m) = "") ∧
    (∀ msg : IncomingMessage, msg.isFromMe = false →
      extractTextContent msg.message = "" →
      handleIncomingMessage msg = .ignoredNoText) := by
  refine ⟨rfl, ?_, ?_, ?_⟩
  · intro m h1 h2
    simp [extractTextContent, h1, h2]
  · intro m e h1 h2 h3
    simp [extractTextContent, h1, h2, h3]
  · intro msg h1 h2
    have htrim : goTrimSpace "" = "" := rfl
    simp [handleIncomingMessage, h1, h2, htrim]

/-- Claim C10 witness: a concrete event with a nil message body is
filtered as having no text. -/
theorem extractText_total_witness :
    handleIncomingMessage nilBodyMsg = .ignoredNoText :=
  extractText_total.2.2.2 nilBodyMsg rfl rfl

end Bridge
